import Mathlib

/-!
Shallow embedding of the rust-invelion protocol core (src/protocol.rs,
src/error.rs, src/lib.rs).  Machine bytes are modelled as `Nat` with
explicit `% 256` where the Rust code wraps; `f32` frequencies are modelled
as `Rat` (every value the code manipulates is a multiple of 0.5 MHz below
1024, hence exactly representable in `f32`, so rational arithmetic is
exact for it); fallible Rust functions return `RResult`, whose `panic`
constructor models a Rust panic (failed `assert_eq!` or out-of-bounds
index) as distinct from a returned `Err`.
-/

namespace Invelion

/-- CommandType from src/protocol.rs (num_enum TryFromPrimitive, repr u8). -/
inductive CommandType where
  | Reset
  | SetUARTBaudRate
  | GetFirmwareVersion
  | SetReaderAddress
  | SetWorkAntenna
  | GetWorkAntenna
  | SetOutputPower
  | GetOutputPower
  | SetFrequencyRegion
  | GetFrequencyRegion
  | SetBeeperMode
  | GetReaderTemperature
  | ReadGPIOValue
  | WriteGPIOValue
  | SetAntConnectionDetector
  | GetAntConnectionDetector
  | SetTemporaryOutputPower
  | SetReaderIdentifier
  | GetReaderIdentifier
  | SetRFLinkProfile
  | GetRFLinkProfile
  | GetRFPortReturnLoss
  | Inventory
  | Read
  | Write
  | Lock
  | Kill
  | SetAccessEPCMatch
  | GetAccessEPCMatch
  | RealTimeInventory
  | FastSwitchAntInventory
  | CustomizedSessionTargetInventory
  | SetImpinjFastTID
  | SetAndSaveImpinjFastTIC
  | GetImpinjFastTID
  | Inventory6B
  | Read6B
  | Write6B
  | Lock6B
  | QueryLock6B
  | GetInventoryBuffer
  | GetAndResetInventoryBuffer
  | GetBufferTagCount
  | ResetInventoryBuffer
  deriving DecidableEq

/-- Byte value of each CommandType variant (the repr u8 discriminants). -/
def CommandType.toByte : CommandType → Nat
  | .Reset => 0x70
  | .SetUARTBaudRate => 0x71
  | .GetFirmwareVersion => 0x72
  | .SetReaderAddress => 0x73
  | .SetWorkAntenna => 0x74
  | .GetWorkAntenna => 0x75
  | .SetOutputPower => 0x76
  | .GetOutputPower => 0x77
  | .SetFrequencyRegion => 0x78
  | .GetFrequencyRegion => 0x79
  | .SetBeeperMode => 0x7A
  | .GetReaderTemperature => 0x7B
  | .ReadGPIOValue => 0x60
  | .WriteGPIOValue => 0x61
  | .SetAntConnectionDetector => 0x62
  | .GetAntConnectionDetector => 0x63
  | .SetTemporaryOutputPower => 0x66
  | .SetReaderIdentifier => 0x67
  | .GetReaderIdentifier => 0x68
  | .SetRFLinkProfile => 0x69
  | .GetRFLinkProfile => 0x6A
  | .GetRFPortReturnLoss => 0x7E
  | .Inventory => 0x80
  | .Read => 0x81
  | .Write => 0x82
  | .Lock => 0x83
  | .Kill => 0x84
  | .SetAccessEPCMatch => 0x85
  | .GetAccessEPCMatch => 0x86
  | .RealTimeInventory => 0x89
  | .FastSwitchAntInventory => 0x8A
  | .CustomizedSessionTargetInventory => 0x8B
  | .SetImpinjFastTID => 0x8C
  | .SetAndSaveImpinjFastTIC => 0x8D
  | .GetImpinjFastTID => 0x8E
  | .Inventory6B => 0xB0
  | .Read6B => 0xB1
  | .Write6B => 0xB2
  | .Lock6B => 0xB3
  | .QueryLock6B => 0xB4
  | .GetInventoryBuffer => 0x90
  | .GetAndResetInventoryBuffer => 0x91
  | .GetBufferTagCount => 0x92
  | .ResetInventoryBuffer => 0x93

/-- TryFromPrimitive for CommandType: an unknown opcode byte yields none. -/
def CommandType.try_from (b : Nat) : Option CommandType :=
  if b = 0x70 then some .Reset
  else if b = 0x71 then some .SetUARTBaudRate
  else if b = 0x72 then some .GetFirmwareVersion
  else if b = 0x73 then some .SetReaderAddress
  else if b = 0x74 then some .SetWorkAntenna
  else if b = 0x75 then some .GetWorkAntenna
  else if b = 0x76 then some .SetOutputPower
  else if b = 0x77 then some .GetOutputPower
  else if b = 0x78 then some .SetFrequencyRegion
  else if b = 0x79 then some .GetFrequencyRegion
  else if b = 0x7A then some .SetBeeperMode
  else if b = 0x7B then some .GetReaderTemperature
  else if b = 0x60 then some .ReadGPIOValue
  else if b = 0x61 then some .WriteGPIOValue
  else if b = 0x62 then some .SetAntConnectionDetector
  else if b = 0x63 then some .GetAntConnectionDetector
  else if b = 0x66 then some .SetTemporaryOutputPower
  else if b = 0x67 then some .SetReaderIdentifier
  else if b = 0x68 then some .GetReaderIdentifier
  else if b = 0x69 then some .SetRFLinkProfile
  else if b = 0x6A then some .GetRFLinkProfile
  else if b = 0x7E then some .GetRFPortReturnLoss
  else if b = 0x80 then some .Inventory
  else if b = 0x81 then some .Read
  else if b = 0x82 then some .Write
  else if b = 0x83 then some .Lock
  else if b = 0x84 then some .Kill
  else if b = 0x85 then some .SetAccessEPCMatch
  else if b = 0x86 then some .GetAccessEPCMatch
  else if b = 0x89 then some .RealTimeInventory
  else if b = 0x8A then some .FastSwitchAntInventory
  else if b = 0x8B then some .CustomizedSessionTargetInventory
  else if b = 0x8C then some .SetImpinjFastTID
  else if b = 0x8D then some .SetAndSaveImpinjFastTIC
  else if b = 0x8E then some .GetImpinjFastTID
  else if b = 0xB0 then some .Inventory6B
  else if b = 0xB1 then some .Read6B
  else if b = 0xB2 then some .Write6B
  else if b = 0xB3 then some .Lock6B
  else if b = 0xB4 then some .QueryLock6B
  else if b = 0x90 then some .GetInventoryBuffer
  else if b = 0x91 then some .GetAndResetInventoryBuffer
  else if b = 0x92 then some .GetBufferTagCount
  else if b = 0x93 then some .ResetInventoryBuffer
  else none

/-- ResponseCode from src/protocol.rs (num_enum TryFromPrimitive, repr u8). -/
inductive ResponseCode where
  | Success
  | Fail
  | MCUResetError
  | CWOnError
  | AntennaMissingError
  | WriteFlashError
  | ReadFlashError
  | SetOutputPowerError
  | TagInventoryError
  | TagReadError
  | TagWriteError
  | TagLockError
  | TagKillError
  | NoTagError
  | InventoryOKAccessFailError
  | BufferEmptyError
  | AccessFailError
  | InvalidParameterError
  | WordCntTooLongError
  | MemBankOutOfRangeError
  | LockRegionOutOfRangeError
  | LockTypeOutOfRangeError
  | InvalidReaderAddressError
  | InvalidAntennaIDError
  | OutputPowerOutOfRangeError
  | InvalidFrequencyRegionError
  | InvalidBaudRateError
  | InvalidBeeperModeError
  | EPCMatchLenTooLongError
  | EPCMatchLenError
  | InvalidEPCMatchModeError
  | InvalidFrequencyRangeError
  | FailToGetRN16Error
  | InvalidDRMModeError
  | PLLLockFailError
  | RFChipError
  | FailToAchieveDesiredPowerError
  | CopyrightAuthenticationError
  | SpectrumRegulationError
  | OutputPowerTooLowError
  deriving DecidableEq

/-- TryFromPrimitive for ResponseCode: an unknown status byte yields none. -/
def ResponseCode.try_from (b : Nat) : Option ResponseCode :=
  if b = 0x10 then some .Success
  else if b = 0x11 then some .Fail
  else if b = 0x20 then some .MCUResetError
  else if b = 0x21 then some .CWOnError
  else if b = 0x22 then some .AntennaMissingError
  else if b = 0x23 then some .WriteFlashError
  else if b = 0x24 then some .ReadFlashError
  else if b = 0x25 then some .SetOutputPowerError
  else if b = 0x31 then some .TagInventoryError
  else if b = 0x32 then some .TagReadError
  else if b = 0x33 then some .TagWriteError
  else if b = 0x34 then some .TagLockError
  else if b = 0x35 then some .TagKillError
  else if b = 0x36 then some .NoTagError
  else if b = 0x37 then some .InventoryOKAccessFailError
  else if b = 0x38 then some .BufferEmptyError
  else if b = 0x40 then some .AccessFailError
  else if b = 0x41 then some .InvalidParameterError
  else if b = 0x42 then some .WordCntTooLongError
  else if b = 0x43 then some .MemBankOutOfRangeError
  else if b = 0x44 then some .LockRegionOutOfRangeError
  else if b = 0x45 then some .LockTypeOutOfRangeError
  else if b = 0x46 then some .InvalidReaderAddressError
  else if b = 0x47 then some .InvalidAntennaIDError
  else if b = 0x48 then some .OutputPowerOutOfRangeError
  else if b = 0x49 then some .InvalidFrequencyRegionError
  else if b = 0x4A then some .InvalidBaudRateError
  else if b = 0x4B then some .InvalidBeeperModeError
  else if b = 0x4C then some .EPCMatchLenTooLongError
  else if b = 0x4D then some .EPCMatchLenError
  else if b = 0x4E then some .InvalidEPCMatchModeError
  else if b = 0x4F then some .InvalidFrequencyRangeError
  else if b = 0x50 then some .FailToGetRN16Error
  else if b = 0x51 then some .InvalidDRMModeError
  else if b = 0x52 then some .PLLLockFailError
  else if b = 0x53 then some .RFChipError
  else if b = 0x54 then some .FailToAchieveDesiredPowerError
  else if b = 0x55 then some .CopyrightAuthenticationError
  else if b = 0x56 then some .SpectrumRegulationError
  else if b = 0x57 then some .OutputPowerTooLowError
  else none

/-- Debug-format name of each ResponseCode variant (the derive Debug output
used by the format string in error.rs). -/
def ResponseCode.name : ResponseCode → String
  | .Success => "Success"
  | .Fail => "Fail"
  | .MCUResetError => "MCUResetError"
  | .CWOnError => "CWOnError"
  | .AntennaMissingError => "AntennaMissingError"
  | .WriteFlashError => "WriteFlashError"
  | .ReadFlashError => "ReadFlashError"
  | .SetOutputPowerError => "SetOutputPowerError"
  | .TagInventoryError => "TagInventoryError"
  | .TagReadError => "TagReadError"
  | .TagWriteError => "TagWriteError"
  | .TagLockError => "TagLockError"
  | .TagKillError => "TagKillError"
  | .NoTagError => "NoTagError"
  | .InventoryOKAccessFailError => "InventoryOKAccessFailError"
  | .BufferEmptyError => "BufferEmptyError"
  | .AccessFailError => "AccessFailError"
  | .InvalidParameterError => "InvalidParameterError"
  | .WordCntTooLongError => "WordCntTooLongError"
  | .MemBankOutOfRangeError => "MemBankOutOfRangeError"
  | .LockRegionOutOfRangeError => "LockRegionOutOfRangeError"
  | .LockTypeOutOfRangeError => "LockTypeOutOfRangeError"
  | .InvalidReaderAddressError => "InvalidReaderAddressError"
  | .InvalidAntennaIDError => "InvalidAntennaIDError"
  | .OutputPowerOutOfRangeError => "OutputPowerOutOfRangeError"
  | .InvalidFrequencyRegionError => "InvalidFrequencyRegionError"
  | .InvalidBaudRateError => "InvalidBaudRateError"
  | .InvalidBeeperModeError => "InvalidBeeperModeError"
  | .EPCMatchLenTooLongError => "EPCMatchLenTooLongError"
  | .EPCMatchLenError => "EPCMatchLenError"
  | .InvalidEPCMatchModeError => "InvalidEPCMatchModeError"
  | .InvalidFrequencyRangeError => "InvalidFrequencyRangeError"
  | .FailToGetRN16Error => "FailToGetRN16Error"
  | .InvalidDRMModeError => "InvalidDRMModeError"
  | .PLLLockFailError => "PLLLockFailError"
  | .RFChipError => "RFChipError"
  | .FailToAchieveDesiredPowerError => "FailToAchieveDesiredPowerError"
  | .CopyrightAuthenticationError => "CopyrightAuthenticationError"
  | .SpectrumRegulationError => "SpectrumRegulationError"
  | .OutputPowerTooLowError => "OutputPowerTooLowError"

/-- Error from src/error.rs.  The Rust `Io(io::Error)` payload is not
relevant to any frame-level behaviour, so it is dropped here (the
constructor is named IoError because plain Io keeps the payload we drop). -/
inductive Error where
  | IoError
  | Communication (c : ResponseCode)
  | Protocol (c : ResponseCode)
  | Program (msg : String)
  deriving DecidableEq

/-- Result of running a piece of Rust code: a value, a returned Err, or a
panic (failed assert or out-of-bounds index / slice). -/
inductive RResult (α : Type) where
  | ok (a : α)
  | err (e : Error)
  | panic
  deriving DecidableEq

/-- From ResponseCode for Error (src/error.rs): every status falls through
to the catch-all arm producing Error::Program with the Debug-formatted
status, because all the specific arms are commented out in the source. -/
def Error.fromResponseCode (c : ResponseCode) : Error :=
  Error.Program ("Invalid status response: " ++ c.name)

/-- command_has_response_code from src/protocol.rs: whether this command
includes a response status byte in its reply, given the full frame length. -/
def command_has_response_code (command : CommandType) (length : Nat) : Bool :=
  match command with
  | .GetFirmwareVersion => false
  | .GetOutputPower => false
  | .GetReaderTemperature => false
  | .GetRFPortReturnLoss => false
  | .GetWorkAntenna => false
  | .GetAntConnectionDetector => false
  | .RealTimeInventory => if length = 0x04 then true else false
  | _ => true

/-- convert_to_frequency from src/protocol.rs: internal representation to a
frequency in MHz.  The f32 arithmetic is exact for these values, modelled
in Rat; `freq - 7` uses truncated subtraction exactly as u8 does. -/
def convert_to_frequency (freq : Nat) : Rat :=
  if freq < 7 then 865 + (1/2) * (freq : Rat)
  else 902 + (1/2) * ((freq - 7 : Nat) : Rat)

/-- Rust `as u8` on a non-negative float: truncate toward zero, saturating
at 255.  The two call sites only apply it to non-negative values, where
truncation toward zero coincides with the floor. -/
def ratToU8 (q : Rat) : Nat :=
  min 255 (Int.toNat ⌊q⌋)

/-- convert_from_frequency from src/protocol.rs: frequency in MHz to the
internal representation; outside both bands it returns the
Invalid-frequency Program error.  The `+ 7` is u8 addition, hence % 256. -/
def convert_from_frequency (frequency : Rat) : RResult Nat :=
  if 865 ≤ frequency ∧ frequency ≤ 868 then
    .ok (ratToU8 ((frequency - 865) / (1/2)))
  else if 902 ≤ frequency ∧ frequency ≤ 928 then
    .ok ((ratToU8 ((frequency - 902) / (1/2)) + 7) % 256)
  else
    .err (.Program ("Invalid frequency " ++ toString frequency))

/-- Rust `as i8` of an i16 value: wrap into the signed byte range. -/
def asI8 (n : Int) : Int :=
  (n + 128) % 256 - 128

/-- convert_rssi from src/protocol.rs: internal representation to RSSI in
dBm, with the discontinuity at 89 preserved. -/
def convert_rssi (rssi : Nat) : Int :=
  if 89 < rssi then asI8 ((rssi : Int) - 129)
  else asI8 ((rssi : Int) - 130)

/-- calculate_checksum from src/protocol.rs: 8-bit wrapping sum of all
bytes, then two's-complement negation (`!sum` is `255 - sum` for a byte,
and the `+ 1` wraps). -/
def calculate_checksum (data : List Nat) : Nat :=
  let sum := data.foldl (fun s b => (s + b) % 256) 0
  ((255 - sum) + 1) % 256

/-- Response from src/protocol.rs: `command` is the raw opcode byte. -/
structure Response where
  address : Nat
  command : Nat
  status : Option ResponseCode
  data : List Nat
  deriving DecidableEq

/-- Response::raise_error from src/protocol.rs, with the match arms in the
source's order: Some(Success) and None pass through, any other status
becomes Error::from(status). -/
def Response.raise_error (r : Response) : RResult Response :=
  match r.status with
  | some .Success => .ok r
  | none => .ok r
  | some status => .err (Error.fromResponseCode status)

/-- Response::from_bytes from src/protocol.rs.  Every Rust indexing or
slicing step that can go out of bounds is made explicit as a `.panic`
branch; in particular the checksum-mismatch arm panics, because the
error-message `format!` there indexes `data[len]` with `len = data.len()`,
which is out of bounds. -/
def Response.from_bytes (data : List Nat) : RResult Response :=
  if data.length < 1 then .panic
  else if data.getD 0 0 ≠ 0xA0 then .panic
  else if data.length < 2 then .panic
  else if data.getD 1 0 ≠ data.length - 2 then .panic
  else
    let len := data.length
    let checksum := calculate_checksum (data.take (len - 1))
    if data.getD (len - 1) 0 ≠ checksum then
      .panic
    else if len < 4 then .panic
    else
      match CommandType.try_from (data.getD 3 0) with
      | none => .err (.Program "unknown command type")
      | some command_type =>
        if command_has_response_code command_type len then
          if len < 5 then .panic
          else
            match ResponseCode.try_from (data.getD 4 0) with
            | none => .err (.Program "unknown response code")
            | some response_code =>
              if len < 6 then .panic
              else
                Response.raise_error
                  { address := data.getD 2 0
                    command := data.getD 3 0
                    status := some response_code
                    data := (data.drop 5).take (len - 1 - 5) }
        else
          if len < 5 then .panic
          else
            Response.raise_error
              { address := data.getD 2 0
                command := data.getD 3 0
                status := none
                data := (data.drop 4).take (len - 1 - 4) }

/-- Bit i (counting from the most significant bit of byte 0) of a byte
sequence, as the bitreader crate addresses bits. -/
def bitAt (bytes : List Nat) (i : Nat) : Nat :=
  (bytes.getD (i / 8) 0) >>> (7 - i % 8) % 2

/-- BitReader state: the byte buffer plus the current bit position. -/
structure BitReader where
  bytes : List Nat
  pos : Nat
  deriving DecidableEq

/-- BitReader::read_u8 and friends: read n bits most-significant-bit first,
failing once the buffer has fewer than n bits left. -/
def BitReader.read_bits (r : BitReader) (n : Nat) : RResult (Nat × BitReader) :=
  if r.pos + n ≤ 8 * r.bytes.length then
    .ok ((List.range n).foldl (fun acc j => 2 * acc + bitAt r.bytes (r.pos + j)) 0,
      { bytes := r.bytes, pos := r.pos + n })
  else .err (.Program "not enough data")

/-- InventoryItem from src/protocol.rs, with frequency as an exact Rat. -/
structure InventoryItem where
  frequency : Rat
  antenna : Nat
  pc : List Nat
  epc : List Nat
  rssi : Int
  deriving DecidableEq

/-- InventoryItem::from_bytes from src/protocol.rs: 6-bit frequency index
then 2-bit antenna from byte 0 via a BitReader, PC from bytes 1..3, EPC
from bytes 3..len-1, RSSI from the final byte.  The out-of-bounds slices
for payloads shorter than 4 bytes panic, as in Rust. -/
def InventoryItem.from_bytes (data : List Nat) : RResult InventoryItem :=
  if data.length < 1 then .panic
  else
    let first_byte := [data.getD 0 0]
    match BitReader.read_bits { bytes := first_byte, pos := 0 } 6 with
    | .err e => .err e
    | .panic => .panic
    | .ok (freq, reader) =>
      match reader.read_bits 2 with
      | .err e => .err e
      | .panic => .panic
      | .ok (antenna, _) =>
        if data.length < 3 then .panic
        else if data.length < 4 then .panic
        else
          .ok { frequency := convert_to_frequency freq
                antenna := antenna
                pc := (data.drop 1).take 2
                epc := (data.drop 3).take (data.length - 1 - 3)
                rssi := convert_rssi (data.getD (data.length - 1) 0) }

/-- Reader::wait_for_start from src/lib.rs over a byte-list stream: discard
bytes until START_BYTE, returning the rest of the stream; an exhausted
stream is a failed read_exact, i.e. an I/O error. -/
def wait_for_start : List Nat → RResult (List Nat)
  | [] => .err .IoError
  | b :: rest => if b = 0xA0 then .ok rest else wait_for_start rest

/-- Reader::receive_packet from src/lib.rs: wait for a start byte, read the
length byte, read up to `len` further bytes (Read::take + read_to_end
returns fewer without error when the stream ends), rebuild the frame and
parse it.  Returns the parsed Response and the unconsumed stream. -/
def receive_packet (stream : List Nat) : RResult (Response × List Nat) :=
  match wait_for_start stream with
  | .err e => .err e
  | .panic => .panic
  | .ok rest =>
    match rest with
    | [] => .err .IoError
    | len :: rest2 =>
      let response := 0xA0 :: len :: rest2.take len
      match Response.from_bytes response with
      | .err e => .err e
      | .panic => .panic
      | .ok r => .ok (r, rest2.drop len)

/-- Reader::receive from src/lib.rs: repeat receive_packet, dropping frames
whose raw opcode byte differs from the expected command, until one
matches.  Fuel bounds the recursion; stream length shrinks each round, so
any fuel above the stream length is enough. -/
def receive (cmd : Nat) : Nat → List Nat → RResult (Response × List Nat)
  | 0, _ => .err .IoError
  | fuel + 1, stream =>
    match receive_packet stream with
    | .err e => .err e
    | .panic => .panic
    | .ok (packet, rest) =>
      if packet.command = cmd then .ok (packet, rest)
      else receive cmd fuel rest

/-- Modelled from the spec: `ReadResult::from_bytes` is referenced by
src/lib.rs but its definition is absent from the sources; the spec says
only that it decodes one tag's memory-bank read outcome paired with a
tag_count telling the session how many frames to expect.  The loop below
is therefore parameterized by an arbitrary decoder `rr` of that shape. -/
def read_loop {ρ : Type} (rr : List Nat → RResult (Nat × ρ)) :
    Nat → List Nat → List ρ → RResult (List ρ × List Nat)
  | 0, _, _ => .err .IoError
  | fuel + 1, stream, results =>
    match receive 0x81 (fuel + 1) stream with
    | .err e => .err e
    | .panic => .panic
    | .ok (response, rest) =>
      if response.status = some .NoTagError then .ok (results, rest)
      else
        match rr response.data with
        | .err e => .err e
        | .panic => .panic
        | .ok (tag_count, packet) =>
          let results := results ++ [packet]
          if results.length = tag_count then .ok (results, rest)
          else read_loop rr fuel rest results

/-! Helper lemmas. -/

theorem raise_error_ok (x r : Response) (h : x.raise_error = .ok r) :
    r = x ∧ (x.status = none ∨ x.status = some ResponseCode.Success) := by
  unfold Response.raise_error at h
  rcases hs : x.status with _ | c
  · rw [hs] at h
    cases h
    simp_all
  · rw [hs] at h
    cases c <;> simp_all

set_option maxHeartbeats 1000000 in
set_option maxRecDepth 4000 in
theorem read_bits_byte (b : Nat) (hb : b < 256) :
    BitReader.read_bits { bytes := [b], pos := 0 } 6 =
      .ok (b / 4, { bytes := [b], pos := 6 }) ∧
    BitReader.read_bits { bytes := [b], pos := 6 } 2 =
      .ok (b % 4, { bytes := [b], pos := 8 }) := by
  have key : ∀ x : Fin 256,
      BitReader.read_bits { bytes := [x.1], pos := 0 } 6 =
        .ok (x.1 / 4, { bytes := [x.1], pos := 6 }) ∧
      BitReader.read_bits { bytes := [x.1], pos := 6 } 2 =
        .ok (x.1 % 4, { bytes := [x.1], pos := 8 }) := by
    decide
  exact key ⟨b, hb⟩

theorem from_bytes_ok_header (data : List Nat) (r : Response)
    (h : Response.from_bytes data = .ok r) :
    2 ≤ data.length ∧ data.getD 0 0 = 0xA0 ∧ data.getD 1 0 = data.length - 2 := by
  unfold Response.from_bytes at h
  by_cases h1 : data.length < 1
  · rw [if_pos h1] at h; cases h
  rw [if_neg h1] at h
  by_cases h2 : data.getD 0 0 ≠ 0xA0
  · rw [if_pos h2] at h; cases h
  rw [if_neg h2] at h
  by_cases h3 : data.length < 2
  · rw [if_pos h3] at h; cases h
  rw [if_neg h3] at h
  by_cases h4 : data.getD 1 0 ≠ data.length - 2
  · rw [if_pos h4] at h; cases h
  push_neg at h2 h4
  exact ⟨by omega, h2, h4⟩

theorem wait_for_start_garbage (g t : List Nat) (hg : ∀ b ∈ g, b ≠ 0xA0) :
    wait_for_start (g ++ 0xA0 :: t) = .ok t := by
  induction g with
  | nil => simp [wait_for_start]
  | cons b g ih =>
    have hb : b ≠ 0xA0 := hg b (by simp)
    have hrest : ∀ x ∈ g, x ≠ 0xA0 := fun x hx => hg x (by simp [hx])
    simpa [wait_for_start, hb] using ih hrest

theorem foldl_add_mod (data : List Nat) (a : Nat) :
    data.foldl (fun s b => (s + b) % 256) (a % 256) = (a + data.sum) % 256 := by
  induction data generalizing a with
  | nil => simp
  | cons x xs ih =>
    simp only [List.foldl_cons, List.sum_cons]
    have hstep : (a % 256 + x) % 256 = (a + x) % 256 := by omega
    rw [hstep, show (a + x) % 256 = (a + x) % 256 from rfl]
    have := ih (a + x)
    rw [this]
    omega

/-! Claim theorems. -/

/-- C1: command_has_response_code returns false for the six getter
commands; for RealTimeInventory it returns true exactly when the frame
length is 4; for every other command type it returns true. -/
theorem c1_status_byte_rule (c : CommandType) (L : Nat) :
    ((c = CommandType.GetFirmwareVersion ∨ c = CommandType.GetOutputPower ∨
      c = CommandType.GetReaderTemperature ∨ c = CommandType.GetRFPortReturnLoss ∨
      c = CommandType.GetWorkAntenna ∨ c = CommandType.GetAntConnectionDetector) →
      command_has_response_code c L = false) ∧
    (command_has_response_code CommandType.RealTimeInventory L = true ↔ L = 4) ∧
    ((c ≠ CommandType.GetFirmwareVersion ∧ c ≠ CommandType.GetOutputPower ∧
      c ≠ CommandType.GetReaderTemperature ∧ c ≠ CommandType.GetRFPortReturnLoss ∧
      c ≠ CommandType.GetWorkAntenna ∧ c ≠ CommandType.GetAntConnectionDetector ∧
      c ≠ CommandType.RealTimeInventory) →
      command_has_response_code c L = true) := by
  refine ⟨?_, ?_, ?_⟩
  · rintro (rfl | rfl | rfl | rfl | rfl | rfl) <;> rfl
  · by_cases hL : L = 4 <;> simp [command_has_response_code, hL]
  · intro h
    cases c <;> simp_all [command_has_response_code]

/-- C1 witness: the rule evaluated at concrete command types and lengths. -/
theorem c1_status_byte_rule_witness :
    command_has_response_code CommandType.GetFirmwareVersion 7 = false ∧
    command_has_response_code CommandType.RealTimeInventory 4 = true ∧
    command_has_response_code CommandType.Read 6 = true :=
  ⟨(c1_status_byte_rule CommandType.GetFirmwareVersion 7).1 (Or.inl rfl),
   (c1_status_byte_rule CommandType.Read 4).2.1.mpr rfl,
   (c1_status_byte_rule CommandType.Read 6).2.2 (by decide)⟩

/-- C2: evaluating the frame parser on a frame whose first two bytes are a
structurally valid header but whose trailing byte is not the checksum of
the preceding bytes: the code panics, because the checksum-mismatch arm
formats `data[len]` with `len = data.len()`, an out-of-bounds index — it
never returns the intended checksum error. -/
theorem c2_checksum_mismatch_panics :
    Response.from_bytes [0xA0, 0x03, 0x01, 0x72, 0x00] = .panic := by decide

/-- C3 counterexample: a successfully parsed Read reply with status Fail
makes the call fail with a Program error (all specific arms of
`From ResponseCode for Error` are commented out), not with a Protocol
error carrying the status. -/
theorem c3_protocol_error_counterexample :
    Response.from_bytes [0xA0, 0x04, 0x01, 0x81, 0x11, 0xC9] =
      .err (Error.Program "Invalid status response: Fail") ∧
    Response.from_bytes [0xA0, 0x04, 0x01, 0x81, 0x11, 0xC9] ≠
      .err (Error.Protocol ResponseCode.Fail) := by
  refine ⟨by decide, by decide⟩

/-- C3 (amended): a parsed frame carrying any known non-Success status
fails the call with a Program error whose message names that status; the
failure is returned, not retried, and is never a Protocol-kind error. -/
theorem c3_non_success_status_is_program_error (r : Response) (c : ResponseCode)
    (hst : r.status = some c) (hc : c ≠ ResponseCode.Success) :
    r.raise_error = .err (Error.Program ("Invalid status response: " ++ c.name)) := by
  unfold Response.raise_error
  rw [hst]
  cases c <;> simp_all [Error.fromResponseCode, ResponseCode.name]

/-- C3 witness: raise_error on a Response carrying status Fail. -/
theorem c3_non_success_status_is_program_error_witness :
    Response.raise_error
      { address := 1, command := 0x81, status := some ResponseCode.Fail, data := [] } =
      .err (Error.Program ("Invalid status response: " ++ ResponseCode.Fail.name)) :=
  c3_non_success_status_is_program_error
    { address := 1, command := 0x81, status := some ResponseCode.Fail, data := [] }
    ResponseCode.Fail rfl (by decide)

/-- C4: feeding the multi-tag read loop a reply frame carrying the
NoTagError status: the parse layer already turns that status into a
Program error, so the loop fails the whole call instead of returning
zero results — the NoTagError branch inside the loop is unreachable. -/
theorem c4_no_tag_reply_fails_call :
    read_loop (fun d => RResult.ok (1, d)) 3 [0xA0, 0x04, 0x01, 0x81, 0x36, 0xA4] [] =
      .err (Error.Program "Invalid status response: NoTagError") := by decide

/-- C5: InventoryItem decoding lays the payload out as top-6-bits raw
frequency index and bottom-2-bits antenna from byte 0 (MSB first), PC from
bytes 1 and 2, EPC from byte 3 up to but excluding the final byte, and the
final byte as RSSI. -/
theorem c5_inventory_item_layout (b0 b1 b2 rssiByte : Nat) (mid : List Nat)
    (hb : b0 < 256) :
    InventoryItem.from_bytes (b0 :: b1 :: b2 :: (mid ++ [rssiByte])) =
      .ok { frequency := convert_to_frequency (b0 / 4)
            antenna := b0 % 4
            pc := [b1, b2]
            epc := mid
            rssi := convert_rssi rssiByte } := by
  obtain ⟨h6, h2⟩ := read_bits_byte b0 hb
  have hlen : (b0 :: b1 :: b2 :: (mid ++ [rssiByte])).length = mid.length + 4 := by
    simp
  unfold InventoryItem.from_bytes
  rw [if_neg (by rw [hlen]; omega)]
  simp only [List.getD_cons_zero]
  simp only [h6]
  simp only [h2]
  rw [if_neg (by rw [hlen]; omega), if_neg (by rw [hlen]; omega)]
  rw [hlen]
  have h43 : mid.length + 4 - 1 - 3 = mid.length := by omega
  have h41 : mid.length + 4 - 1 = mid.length + 3 := by omega
  rw [h43, h41]
  have hg : (b0 :: b1 :: b2 :: (mid ++ [rssiByte])).getD (mid.length + 3) 0 = rssiByte := by
    have hsplit : b0 :: b1 :: b2 :: (mid ++ [rssiByte]) =
        (b0 :: b1 :: b2 :: mid) ++ [rssiByte] := by simp
    have hidx : mid.length + 3 = (b0 :: b1 :: b2 :: mid).length := by
      simp
    rw [hsplit, hidx]
    simp [List.getD_append_right]
  rw [hg]
  have hepc : ((b0 :: b1 :: b2 :: (mid ++ [rssiByte])).drop 3).take mid.length = mid := by
    have : (b0 :: b1 :: b2 :: (mid ++ [rssiByte])).drop 3 = mid ++ [rssiByte] := by simp
    rw [this]
    exact List.take_left mid [rssiByte]
  rw [hepc]
  simp

/-- C5 witness: the layout at a concrete 6-byte tag payload. -/
theorem c5_inventory_item_layout_witness :
    InventoryItem.from_bytes [0xC6, 0x30, 0x00, 0xAA, 0xBB, 0x50] =
      .ok { frequency := convert_to_frequency (0xC6 / 4)
            antenna := 0xC6 % 4
            pc := [0x30, 0x00]
            epc := [0xAA, 0xBB]
            rssi := convert_rssi 0x50 } :=
  c5_inventory_item_layout 0xC6 0x30 0x00 0x50 [0xAA, 0xBB] (by decide)

/-- C6: the checksum is the two's-complement negation of the 8-bit
wrapping sum of the input bytes, and reproduces the five datasheet test
vectors. -/
theorem c6_checksum_formula :
    (∀ data : List Nat,
      (calculate_checksum data : Int) = -((data.sum : Int) % 256) % 256) ∧
    calculate_checksum [1, 2, 3, 4] = 246 ∧
    calculate_checksum [134, 200, 3, 253] = 178 ∧
    calculate_checksum [220, 4, 3, 30] = 255 ∧
    calculate_checksum [20, 45, 3, 30, 150, 230, 120] = 170 ∧
    calculate_checksum [0xA0, 0x03, 0x01, 0x72] = 0xEA := by
  refine ⟨?_, by decide, by decide, by decide, by decide, by decide⟩
  intro data
  unfold calculate_checksum
  have h := foldl_add_mod data 0
  simp only [Nat.zero_mod, Nat.zero_add] at h
  simp only [h]
  omega

/-- C7: appending the checksum of a frame to the frame yields a sequence
whose checksum over all but the last byte equals the last byte. -/
theorem c7_checksum_append_self_inverse (frame : List Nat)
    (_h : frame.length ≤ 255) :
    calculate_checksum ((frame ++ [calculate_checksum frame]).dropLast) =
      (frame ++ [calculate_checksum frame]).getLastD 0 := by
  simp

/-- C7 witness: the self-inverse property at a concrete frame. -/
theorem c7_checksum_append_self_inverse_witness :
    calculate_checksum
      (([0xA0, 0x03, 0x01, 0x72] ++
        [calculate_checksum [0xA0, 0x03, 0x01, 0x72]]).dropLast) =
      ([0xA0, 0x03, 0x01, 0x72] ++
        [calculate_checksum [0xA0, 0x03, 0x01, 0x72]]).getLastD 0 :=
  c7_checksum_append_self_inverse [0xA0, 0x03, 0x01, 0x72] (by decide)

/-- C8: on the 0.5 MHz grid of [865,868] the encoder returns the raw step
index and the decoder maps it back exactly; likewise on [902,928] with
offset 7; outside both ranges the encoder fails with the invalid-frequency
Program error. -/
theorem c8_frequency_roundtrip (k : Nat) (f : Rat) :
    (k ≤ 6 → convert_from_frequency (865 + (k : Rat) / 2) = .ok k ∧
      convert_to_frequency k = 865 + (k : Rat) / 2) ∧
    (k ≤ 52 → convert_from_frequency (902 + (k : Rat) / 2) = .ok (k + 7) ∧
      convert_to_frequency (k + 7) = 902 + (k : Rat) / 2) ∧
    (¬(865 ≤ f ∧ f ≤ 868) → ¬(902 ≤ f ∧ f ≤ 928) →
      convert_from_frequency f =
        .err (.Program ("Invalid frequency " ++ toString f))) := by
  refine ⟨?_, ?_, ?_⟩
  · intro hk
    have hkQ : (k : Rat) ≤ 6 := by exact_mod_cast hk
    have hk0 : (0 : Rat) ≤ (k : Rat) / 2 := by positivity
    constructor
    · unfold convert_from_frequency
      rw [if_pos ⟨by linarith, by linarith⟩]
      have harg : (865 + (k : Rat) / 2 - 865) / (1 / 2) = (k : Rat) := by ring
      unfold ratToU8
      rw [harg, Int.floor_natCast]
      simp only [Int.toNat_natCast]
      congr 1
      omega
    · unfold convert_to_frequency
      rw [if_pos (by omega)]
      ring
  · intro hk
    have hkQ : (k : Rat) ≤ 52 := by exact_mod_cast hk
    have hk0 : (0 : Rat) ≤ (k : Rat) / 2 := by positivity
    constructor
    · unfold convert_from_frequency
      rw [if_neg (by push_neg; intro; linarith), if_pos ⟨by linarith, by linarith⟩]
      have harg : (902 + (k : Rat) / 2 - 902) / (1 / 2) = (k : Rat) := by ring
      unfold ratToU8
      rw [harg, Int.floor_natCast]
      simp only [Int.toNat_natCast]
      congr 1
      omega
    · unfold convert_to_frequency
      rw [if_neg (by omega)]
      have : k + 7 - 7 = k := by omega
      rw [this]
      ring
  · intro h1 h2
    unfold convert_from_frequency
    rw [if_neg h1, if_neg h2]

/-- C8 witness: encode on the grid and off the grid. -/
theorem c8_frequency_roundtrip_witness :
    convert_from_frequency (865 + (5 : Rat) / 2) = .ok 5 ∧
    convert_from_frequency 100 =
      .err (.Program ("Invalid frequency " ++ toString (100 : Rat))) :=
  ⟨((c8_frequency_roundtrip 5 100).1 (by norm_num)).1,
   (c8_frequency_roundtrip 5 100).2.2 (by norm_num) (by norm_num)⟩

/-- C9: a stream of garbage bytes (none the start byte) followed by a
valid frame and then arbitrary further bytes: receive_packet returns the
parsed frame and leaves exactly the further bytes unconsumed. -/
theorem c9_receive_one_frame (garbage frame rest : List Nat) (r : Response)
    (hg : ∀ b ∈ garbage, b ≠ 0xA0)
    (hok : Response.from_bytes frame = .ok r) :
    receive_packet (garbage ++ (frame ++ rest)) = .ok (r, rest) := by
  obtain ⟨hlen, h0, h1⟩ := from_bytes_ok_header frame r hok
  rcases frame with _ | ⟨b0, _ | ⟨b1, body⟩⟩
  · simp at hlen
  · simp at hlen
  · have hb0 : b0 = 0xA0 := by simpa using h0
    have hb1 : b1 = body.length := by simpa using h1
    subst hb0
    subst hb1
    unfold receive_packet
    have hstream : garbage ++ ((0xA0 :: body.length :: body) ++ rest) =
        garbage ++ 0xA0 :: (body.length :: (body ++ rest)) := by simp
    rw [hstream, wait_for_start_garbage garbage _ hg]
    simp only [List.take_left, List.drop_left, hok]

/-- C9 witness: two garbage bytes, a firmware-version frame, two trailing
bytes. -/
theorem c9_receive_one_frame_witness :
    receive_packet ([1, 2] ++ ([0xA0, 0x05, 0x01, 0x72, 0x01, 0x02, 0xE5] ++ [7, 8])) =
      .ok ({ address := 1, command := 0x72, status := none, data := [1, 2] }, [7, 8]) :=
  c9_receive_one_frame [1, 2] [0xA0, 0x05, 0x01, 0x72, 0x01, 0x02, 0xE5] [7, 8]
    { address := 1, command := 0x72, status := none, data := [1, 2] }
    (by decide) (by decide)

/-- C10: whenever Response::from_bytes returns Ok, the status field is
either absent or Success; a known non-Success status never escapes in a
successfully returned Response. -/
theorem c10_ok_response_status (data : List Nat) (r : Response)
    (h : Response.from_bytes data = .ok r) :
    r.status = none ∨ r.status = some ResponseCode.Success := by
  simp only [Response.from_bytes] at h
  repeat' split at h
  all_goals try (obtain ⟨rfl, hst⟩ := raise_error_ok _ _ h; exact hst)
  all_goals cases h

/-- C10 witness: the invariant instantiated on a parsed firmware frame. -/
theorem c10_ok_response_status_witness :
    ({ address := 1, command := 0x72, status := none, data := [1, 2] } : Response).status =
      none ∨
    ({ address := 1, command := 0x72, status := none, data := [1, 2] } : Response).status =
      some ResponseCode.Success :=
  c10_ok_response_status [0xA0, 0x05, 0x01, 0x72, 0x01, 0x02, 0xE5]
    { address := 1, command := 0x72, status := none, data := [1, 2] } (by decide)

end Invelion
